import Mathlib

/-!
Verification development for the `dify_knowledge_pipline` repository
(`src/dify_knowledge_pipline/fire_drop.py`).

The repository is a synchronous HTTP client (`DifyFireDrop`) that mirrors a
mapping of named text artifacts into a remote knowledge-base service.  We give
a shallow embedding: every method of `DifyFireDrop` becomes a Lean function
parametrised over an abstract server interface `Server σ` (the remote HTTP
endpoints become fields of `Server`, threading an abstract server state `σ`).
The two unbounded loops of the source (`_hook_knowledge_dataset`, which
recurses until the dataset name appears in the listing, and
`_sync_indexing_status`, which polls until a terminal status) take an explicit
`fuel : Nat` bound; exhausting the fuel models divergence of the Python code.

Raised `httpx.HTTPStatusError` exceptions are modelled with `Except HttpError`:
an endpoint whose response the source checks with `raise_for_status` returns
`Except HttpError _`, and a propagating exception aborts the embedded
computation exactly where the Python exception unwinds.

Logging calls (`loguru`) are modelled as structured `LogEvent` effects carrying
the data interpolated into the source's log messages; progress-bar rendering
(`tqdm`) is display-only and is not modelled.
-/

/-- A dataset object as returned by `GET /datasets` (the source reads the
`name` and `id` fields of each entry of `res.json()["data"]`). -/
structure Dataset where
  id : String
  name : String
  deriving Repr, DecidableEq

/-- A document object as returned by `GET /datasets/.../documents` (the source
reads the `name` and `id` fields of each entry). -/
structure Document where
  id : String
  name : String
  deriving Repr, DecidableEq

/-- One entry of the `data` array returned by the indexing-status endpoint:
the source reads `total_segments`, `completed_segments` and
`indexing_status`. -/
structure IndexingData where
  total_segments : Nat
  completed_segments : Nat
  indexing_status : String
  deriving Repr, DecidableEq

/-- Mirror of the pydantic model `UploadDocumentResponse`: a `document` object
(a JSON dict, modelled as an association list) and a `batch` token. -/
structure UploadDocumentResponse where
  document : List (String × String)
  batch : String
  deriving Repr, DecidableEq

/-- One entry of `pre_processing_rules` in the document payload. -/
structure PreProcessingRule where
  id : String
  enabled : Bool
  deriving Repr, DecidableEq

/-- The `segmentation` object of the document payload. -/
structure Segmentation where
  separator : String
  max_tokens : Nat
  deriving Repr, DecidableEq

/-- The `rules` object of the document payload. -/
structure PayloadRules where
  pre_processing_rules : List PreProcessingRule
  segmentation : Segmentation
  deriving Repr, DecidableEq

/-- The `process_rule` object of the document payload. -/
structure ProcessRule where
  mode : String
  rules : PayloadRules
  deriving Repr, DecidableEq

/-- The full document-creation/update payload built by
`_document_preprocess_payload`. -/
structure Payload where
  name : String
  text : String
  indexing_technique : String
  process_rule : ProcessRule
  deriving Repr, DecidableEq

/-- An `httpx.HTTPStatusError`, carrying the HTTP status code.  This is the
only exception class the claims are about: it is what `raise_for_status`
raises and what the source's two `except` clauses catch. -/
inductive HttpError where
  | statusError (code : Nat)
  deriving Repr, DecidableEq

/-- Structured rendering of the source's `loguru` calls, carrying the data the
source interpolates into each message (the literal message text is
observability and is abstracted away). -/
inductive LogEvent where
  /-- Source call `logger.error("不可以添加空的文档")` in `embed_knowledge`. -/
  | emptyDocsError
  /-- Source call `logger.success(f"获取知识库Id - Name=.. Id=..")` in `_hook_knowledge_dataset`. -/
  | datasetFound (db_name : String) (dataset_id : String)
  /-- Source call `logger.warning("知识库不存在！...")` in `_hook_knowledge_dataset`. -/
  | datasetMissingWarn
  /-- Source call `logger.success(f"创建知识库 - ...")` after `POST /datasets`. -/
  | datasetCreated (db_name : String)
  /-- Source call `logger.error(f"更新文檔失敗，...")` in `_update_document_by_text`. -/
  | updateFailed (table_name : String)
  /-- Source call `logger.debug(f"Delete document - ...")` in `delete_all_document`. -/
  | deleteDebug (document_id : String)
  /-- Source call `logger.warning(f"Failed to delete document - ...")` in `delete_all_document`. -/
  | deleteFailedWarn (document_name : String)
  /-- Source call `logger.success(f"Delete all document - count=..")` in `delete_all_document`. -/
  | deleteAllDone (count : Nat)
  deriving Repr, DecidableEq

/-- The remote service together with the ambient effects of the client, over
an abstract server/effect state `σ`.  Each field is one HTTP endpoint the
source calls (plus `sleep` for `time.sleep(1)` and `log` for `loguru` calls).
Endpoints whose response status the source never checks (`GET /datasets`,
`POST /datasets`, the two listing endpoints, the indexing-status endpoint)
cannot fail here, mirroring that the source would use their JSON body
regardless; endpoints guarded by `raise_for_status` return `Except`. -/
structure Server (σ : Type) where
  /-- Endpoint `GET /datasets?limit=100`, returning `res.json()["data"]`. -/
  getDatasets : σ → List Dataset × σ
  /-- Endpoint `POST /datasets` with body `{name}`; the source never checks the
  response status and only logs the body, so no failure is modelled. -/
  postDataset : String → σ → σ
  /-- Endpoint `GET /datasets/{dataset_id}/documents?keyword=..&limit=100`, returning
  `res.json()["data"]`.  (`httpx` serialises a `None` keyword as the empty
  keyword, i.e. an unfiltered listing, modelled as `none`.) -/
  getDocuments : String → Option String → σ → List Document × σ
  /-- Endpoint `POST /datasets/{dataset_id}/document/create_by_text`; checked with
  `raise_for_status`, so it may fail. -/
  postCreateByText : String → Payload → σ → Except HttpError UploadDocumentResponse × σ
  /-- Endpoint `POST /datasets/{dataset_id}/documents/{document_id}/update_by_text`;
  checked with `raise_for_status`, so it may fail. -/
  postUpdateByText : String → String → Payload → σ → Except HttpError UploadDocumentResponse × σ
  /-- Endpoint `DELETE /datasets/{dataset_id}/documents/{document_id}`; checked with
  `raise_for_status`, so it may fail. -/
  deleteDocument : String → String → σ → Except HttpError Unit × σ
  /-- Endpoint `GET /datasets/{dataset_id}/documents/{batch}/indexing-status`,
  returning `res.json()["data"][0]`. -/
  getIndexingStatus : String → String → σ → IndexingData × σ
  /-- Effect of `time.sleep(1)`: one one-second sleep. -/
  sleep : σ → σ
  /-- A `loguru` logging call. -/
  log : LogEvent → σ → σ

/-- Mirror of `DifyFireDrop._document_preprocess_payload`: builds the fixed
document-creation/update payload around `name` and `text`, with the client's
configured separator (`self.my_separator`). -/
def _document_preprocess_payload (my_separator name text : String) : Payload :=
  { name := name
    text := text
    indexing_technique := "high_quality"
    process_rule :=
      { mode := "custom"
        rules :=
          { pre_processing_rules :=
              [ { id := "remove_extra_spaces", enabled := false }
              , { id := "remove_urls_emails", enabled := false } ]
            segmentation := { separator := my_separator, max_tokens := 1000 } } } }

/-- Mirror of `DifyFireDrop._delete_document`: `DELETE` the document and
`raise_for_status`. -/
def _delete_document (sv : Server σ) (dataset_id document_id : String) (s : σ) :
    Except HttpError Unit × σ :=
  sv.deleteDocument dataset_id document_id s

/-- Mirror of `DifyFireDrop._update_document_by_text`: `POST .../update_by_text`; an
`HTTPStatusError` from `raise_for_status` is caught, logged
(`更新文檔失敗...`), and `None` is returned; otherwise the parsed
`UploadDocumentResponse` is returned. -/
def _update_document_by_text (sv : Server σ) (my_separator dataset_id document_id : String)
    (table_name text : String) (s : σ) : Option UploadDocumentResponse × σ :=
  let payload := _document_preprocess_payload my_separator table_name text
  match sv.postUpdateByText dataset_id document_id payload s with
  | (Except.ok udr, s1) => (some udr, s1)
  | (Except.error _, s1) => (none, sv.log (LogEvent.updateFailed table_name) s1)

/-- Mirror of `DifyFireDrop._create_document_by_text`: `POST .../document/create_by_text`
and `raise_for_status` (an error propagates to the caller). -/
def _create_document_by_text (sv : Server σ) (my_separator dataset_id : String)
    (table_name text : String) (s : σ) : Except HttpError UploadDocumentResponse × σ :=
  let payload := _document_preprocess_payload my_separator table_name text
  sv.postCreateByText dataset_id payload s

/-- Mirror of `DifyFireDrop._hook_knowledge_dataset`: list datasets, return the id of
the first entry whose `name` equals `db_name`; otherwise warn, `POST` a
create-dataset request, log, and recurse.  The source recursion has no bound;
`fuel` caps the modelled recursion depth, and a `none` result means the
source would still be recursing after `fuel` rounds (divergence within the
bound). -/
def _hook_knowledge_dataset (sv : Server σ) (db_name : String) (fuel : Nat) (s : σ) :
    Option String × σ :=
  match fuel with
  | 0 => (none, s)
  | Nat.succ fuel1 =>
    let (datasets, s1) := sv.getDatasets s
    match datasets.find? (fun d => d.name == db_name) with
    | some d => (some d.id, sv.log (LogEvent.datasetFound db_name d.id) s1)
    | none =>
      let s2 := sv.log LogEvent.datasetMissingWarn s1
      let s3 := sv.postDataset db_name s2
      let s4 := sv.log (LogEvent.datasetCreated db_name) s3
      _hook_knowledge_dataset sv db_name fuel1 s4

/-- Mirror of `DifyFireDrop._list_documents`: list the documents of a dataset, with an
optional keyword filter (`None` keyword means unfiltered). -/
def _list_documents (sv : Server σ) (dataset_id : String) (table_name : Option String) (s : σ) :
    List Document × σ :=
  sv.getDocuments dataset_id table_name s

/-- Mirror of `DifyFireDrop._sync_document_id`: list documents filtered by
`table_name`, and return the id of the first one whose stored `name` equals
`table_name + ".txt"` (Python returns `None` implicitly when no entry
matches). -/
def _sync_document_id (sv : Server σ) (dataset_id table_name : String) (s : σ) :
    Option String × σ :=
  let (documents, s1) := _list_documents sv dataset_id (some table_name) s
  let document_name := table_name ++ ".txt"
  ((documents.find? (fun d => d.name == document_name)).map (fun d => d.id), s1)

/-- Mirror of `DifyFireDrop._sync_indexing_status`: poll the indexing-status endpoint,
sleep one second, and break out of the `while True` loop when the status is
`"error"` or `"completed"`.  `fuel` caps the number of iterations: the result
is `true` when the loop broke within the bound, `false` when the source would
still be polling after `fuel` iterations. -/
def _sync_indexing_status (sv : Server σ) (dataset_id batch : String) (fuel : Nat) (s : σ) :
    Bool × σ :=
  match fuel with
  | 0 => (false, s)
  | Nat.succ fuel1 =>
    let (data, s1) := sv.getIndexingStatus dataset_id batch s
    let s2 := sv.sleep s1
    if data.indexing_status == "error" || data.indexing_status == "completed" then
      (true, s2)
    else
      _sync_indexing_status sv dataset_id batch fuel1 s2

/-- Python truthiness of `document_id` in
`if document_id := self._sync_document_id(...)`: the walrus condition is
false both for `None` and for the empty string. -/
def optStrTruthy : Option String → Option String
  | some s => if s = "" then none else some s
  | none => none

/-- The body of the `for table_name, knowledge_card in tasks:` loop of
`embed_knowledge` for a single document: look up the document id and dispatch
to delete-then-create (`force_override` and found), update (found), or create
(not found).  An uncaught `HTTPStatusError` (from `_delete_document` or
`_create_document_by_text`) aborts with `Except.error`, carrying the state at
the raise; `_update_document_by_text` failures surface as an `Except.ok none`
result. -/
def embedStep (sv : Server σ) (my_separator dataset_id table_name knowledge_card : String)
    (force_override : Bool) (s : σ) :
    Except (HttpError × σ) (Option UploadDocumentResponse × σ) :=
  let (docId, s1) := _sync_document_id sv dataset_id table_name s
  match optStrTruthy docId with
  | some document_id =>
    if force_override then
      match _delete_document sv dataset_id document_id s1 with
      | (Except.ok _, s2) =>
        match _create_document_by_text sv my_separator dataset_id table_name knowledge_card s2 with
        | (Except.ok udr, s3) => Except.ok (some udr, s3)
        | (Except.error e, s3) => Except.error (e, s3)
      | (Except.error e, s2) => Except.error (e, s2)
    else
      let (r, s2) :=
        _update_document_by_text sv my_separator dataset_id document_id table_name knowledge_card s1
      Except.ok (r, s2)
  | none =>
    match _create_document_by_text sv my_separator dataset_id table_name knowledge_card s1 with
    | (Except.ok udr, s2) => Except.ok (some udr, s2)
    | (Except.error e, s2) => Except.error (e, s2)

/-- The `for` loop of `embed_knowledge` over the items of
`table_to_knowledge`, accumulating the local `response_seq` list (one entry
per processed document, `none` for a recovered update failure).  An uncaught
exception from the loop body propagates, aborting the remaining items. -/
def embedLoop (sv : Server σ) (my_separator dataset_id : String) (force_override : Bool)
    (items : List (String × String)) (s : σ) :
    Except (HttpError × σ) (List (Option UploadDocumentResponse) × σ) :=
  match items with
  | [] => Except.ok ([], s)
  | (table_name, knowledge_card) :: rest =>
    match embedStep sv my_separator dataset_id table_name knowledge_card force_override s with
    | Except.error es => Except.error es
    | Except.ok (response, s1) =>
      match embedLoop sv my_separator dataset_id force_override rest s1 with
      | Except.error es => Except.error es
      | Except.ok (seq, s2) => Except.ok (response :: seq, s2)

/-- The four ways `embed_knowledge` can end.  The Python function returns
`None` on both the `emptyInput` and the `done` path (the local
`response_seq` is discarded: there is no `return` statement after the loop);
`raised` is a propagating `HTTPStatusError`, and `diverged` is
`_hook_knowledge_dataset` still recursing when the modelling fuel runs out. -/
inductive EmbedOutcome (σ : Type) where
  | emptyInput (s : σ)
  | diverged (s : σ)
  | raised (e : HttpError) (s : σ)
  | done (s : σ)
  deriving Repr, DecidableEq

/-- Mirror of `DifyFireDrop.embed_knowledge`: guard against an empty mapping (log an
error and return), resolve the dataset, then run the per-document loop.  The
items list models `table_to_knowledge.items()` in insertion order. -/
def embed_knowledge (sv : Server σ) (my_separator : String)
    (table_to_knowledge : List (String × String)) (db_name : String) (force_override : Bool)
    (fuel : Nat) (s : σ) : EmbedOutcome σ :=
  if table_to_knowledge.isEmpty then
    EmbedOutcome.emptyInput (sv.log LogEvent.emptyDocsError s)
  else
    match _hook_knowledge_dataset sv db_name fuel s with
    | (none, s1) => EmbedOutcome.diverged s1
    | (some dataset_id, s1) =>
      match embedLoop sv my_separator dataset_id force_override table_to_knowledge s1 with
      | Except.error (e, s2) => EmbedOutcome.raised e s2
      | Except.ok (_, s2) => EmbedOutcome.done s2

/-- The `for doc in docs:` loop of `delete_all_document`: delete each listed
document, logging success (`logger.debug`) and catching an
`HTTPStatusError` with a warning (`logger.warning`) so the remaining
deletions proceed. -/
def deleteLoop (sv : Server σ) (dataset_id : String) (docs : List Document) (s : σ) : σ :=
  match docs with
  | [] => s
  | d :: rest =>
    let s1 :=
      match _delete_document sv dataset_id d.id s with
      | (Except.ok _, s0) => sv.log (LogEvent.deleteDebug d.id) s0
      | (Except.error _, s0) => sv.log (LogEvent.deleteFailedWarn d.name) s0
    deleteLoop sv dataset_id rest s1

/-- Mirror of `DifyFireDrop.delete_all_document`: resolve the dataset (creating it when
absent), list its documents unfiltered, delete each one (best effort), and
log the count.  A `none` result means dataset resolution was still recursing
when the modelling fuel ran out. -/
def delete_all_document (sv : Server σ) (db_name : String) (fuel : Nat) (s : σ) : Option σ :=
  match _hook_knowledge_dataset sv db_name fuel s with
  | (none, _) => none
  | (some dataset_id, s1) =>
    let (docs, s2) := _list_documents sv dataset_id none s1
    let s3 := deleteLoop sv dataset_id docs s2
    some (sv.log (LogEvent.deleteAllDone docs.length) s3)

/-!
## Instrumentation: a trace-recording server

To state which HTTP requests a client function issues (and in what order), we
instantiate `Server` at `σ := List Op`, a growing trace of operations, with the
responses supplied by an `Oracle`: an arbitrary function from the trace so far
to the next response.  Quantifying over all oracles quantifies over all
possible sequences of server responses.
-/

/-- One observable operation of the client: an HTTP request, a sleep, or a
logging call. -/
inductive Op where
  | getDatasets
  | postDataset (name : String)
  | getDocuments (dataset_id : String) (keyword : Option String)
  | createByText (dataset_id : String) (payload : Payload)
  | updateByText (dataset_id : String) (document_id : String) (payload : Payload)
  | deleteDocument (dataset_id : String) (document_id : String)
  | getIndexingStatus (dataset_id : String) (batch : String)
  | sleep
  | log (e : LogEvent)
  deriving Repr, DecidableEq

/-- Server responses as a function of the operations issued so far.  Any
oracle gives one deterministic run; quantifying over oracles covers every
response sequence the remote service could produce. -/
structure Oracle where
  datasets : List Op → List Dataset
  documents : List Op → String → Option String → List Document
  createResp : List Op → Except HttpError UploadDocumentResponse
  updateResp : List Op → Except HttpError UploadDocumentResponse
  deleteResp : List Op → Except HttpError Unit
  indexing : List Op → IndexingData

/-- The trace-recording server over an oracle: each endpoint computes its
response from the trace so far, then appends its own operation. -/
def traceServer (o : Oracle) : Server (List Op) where
  getDatasets := fun t => (o.datasets t, t ++ [Op.getDatasets])
  postDataset := fun name t => t ++ [Op.postDataset name]
  getDocuments := fun ds kw t => (o.documents t ds kw, t ++ [Op.getDocuments ds kw])
  postCreateByText := fun ds p t => (o.createResp t, t ++ [Op.createByText ds p])
  postUpdateByText := fun ds doc p t => (o.updateResp t, t ++ [Op.updateByText ds doc p])
  deleteDocument := fun ds doc t => (o.deleteResp t, t ++ [Op.deleteDocument ds doc])
  getIndexingStatus := fun ds b t => (o.indexing t, t ++ [Op.getIndexingStatus ds b])
  sleep := fun t => t ++ [Op.sleep]
  log := fun e t => t ++ [Op.log e]

/-- Number of trace entries satisfying `p`. -/
def countOp (p : Op → Bool) (t : List Op) : Nat := (t.filter p).length

/-- Is this operation a `POST /datasets` create-dataset request? -/
def isCreateDataset : Op → Bool
  | Op.postDataset _ => true
  | _ => false

/-- Is this operation a document-delete request? -/
def isDeleteDocument : Op → Bool
  | Op.deleteDocument _ _ => true
  | _ => false

/-- Is this operation a network request (as opposed to a sleep or a logging
call)? -/
def isNetworkOp : Op → Bool
  | Op.sleep => false
  | Op.log _ => false
  | _ => true

/-- Is this operation a document write (create, update, or delete)? -/
def isWriteOp : Op → Bool
  | Op.createByText _ _ => true
  | Op.updateByText _ _ _ => true
  | Op.deleteDocument _ _ => true
  | _ => false

/-- The document-write requests of a trace, in order. -/
def writeOps (t : List Op) : List Op := t.filter isWriteOp

/-- The state component of a loop-body outcome, whether it returned or
raised. -/
def stepState : Except (HttpError × σ) (Option UploadDocumentResponse × σ) → σ
  | Except.error (_, s) => s
  | Except.ok (_, s) => s

/-!
## Specification-side dispatch

`reconcileDispatchSpec` is written from the words of the specification's
"Document Reconciler" state machine (section 4.3), not from the source: given
the locator outcome, State A (absent) issues a create, State B (present,
`force_override=false`) an update on the found identifier, and State C
(present, `force_override=true`) a delete of the found identifier followed by
a create, in that order.  The dispatch claim compares the embedded source
against it.
-/

/-- The document-write requests the specification's reconciler state machine
prescribes for one document, given the locator outcome. -/
def reconcileDispatchSpec (dataset_id : String) (located : Option String)
    (force_override : Bool) (payload : Payload) : List Op :=
  match located with
  | none => [Op.createByText dataset_id payload]
  | some document_id =>
    if force_override then
      [Op.deleteDocument dataset_id document_id, Op.createByText dataset_id payload]
    else
      [Op.updateByText dataset_id document_id payload]

/-!
## A concrete mock service

For the stateful claims (idempotent dataset resolution, bulk delete on an
unknown name) we fix one deterministic reference service whose state evolves
only through the client's own calls: listings honour the `limit=100` page
size, `POST /datasets` prepends a fresh dataset (newest first, as the remote
service lists them), and creating a document by text stores it under
`payload.name + ".txt"` (the stored-name convention the locator relies on).
-/

/-- State of the mock service: datasets (newest first), documents tagged by
owning dataset id, a fresh-id counter, and a counter of create-dataset
requests received. -/
structure MockState where
  datasets : List Dataset
  docs : List (String × Document)
  nextId : Nat
  creates : Nat
  deriving Repr, DecidableEq

/-- The deterministic mock service. -/
def mockServer : Server MockState where
  getDatasets := fun s => (s.datasets.take 100, s)
  postDataset := fun name s =>
    { s with
      datasets := { id := "ds" ++ toString s.nextId, name := name } :: s.datasets
      nextId := s.nextId + 1
      creates := s.creates + 1 }
  getDocuments := fun ds _ s =>
    (((s.docs.filter (fun p => p.1 == ds)).map Prod.snd).take 100, s)
  postCreateByText := fun ds p s =>
    let doc : Document := { id := "doc" ++ toString s.nextId, name := p.name ++ ".txt" }
    (Except.ok { document := [("id", doc.id)], batch := "b" ++ toString s.nextId },
     { s with docs := s.docs ++ [(ds, doc)], nextId := s.nextId + 1 })
  postUpdateByText := fun ds doc _ s =>
    if (s.docs.filter (fun q => q.1 == ds && q.2.id == doc)).isEmpty then
      (Except.error (HttpError.statusError 404), s)
    else
      (Except.ok { document := [("id", doc)], batch := "b" ++ toString s.nextId },
       { s with nextId := s.nextId + 1 })
  deleteDocument := fun ds doc s =>
    if (s.docs.filter (fun q => q.1 == ds && q.2.id == doc)).isEmpty then
      (Except.error (HttpError.statusError 404), s)
    else
      (Except.ok (), { s with docs := s.docs.filter (fun q => !(q.1 == ds && q.2.id == doc)) })
  getIndexingStatus := fun _ _ s => ({ total_segments := 1, completed_segments := 1, indexing_status := "completed" }, s)
  sleep := fun s => s
  log := fun _ s => s

/-!
## A polling server

For the indexing-monitor claim we instantiate `Server` at
`σ := Nat × Nat`, counting the polls issued and the one-second sleeps
performed, with the status of the `n`-th poll given by a function
`f : Nat → IndexingData`.
-/

/-- Server whose indexing-status responses follow `f`, counting polls
(first component) and one-second sleeps (second component); all other
endpoints are inert. -/
def pollServer (f : Nat → IndexingData) : Server (Nat × Nat) where
  getDatasets := fun s => ([], s)
  postDataset := fun _ s => s
  getDocuments := fun _ _ s => ([], s)
  postCreateByText := fun _ _ s => (Except.error (HttpError.statusError 500), s)
  postUpdateByText := fun _ _ _ s => (Except.error (HttpError.statusError 500), s)
  deleteDocument := fun _ _ s => (Except.error (HttpError.statusError 500), s)
  getIndexingStatus := fun _ _ s => (f s.1, (s.1 + 1, s.2))
  sleep := fun s => (s.1, s.2 + 1)
  log := fun _ s => s

/-- A terminal indexing status, as tested by the source's
`if status in ["error", "completed"]`. -/
def isTerminalStatus (d : IndexingData) : Bool :=
  d.indexing_status == "error" || d.indexing_status == "completed"

/-!
## Concrete oracles and status schedules

Fixed response sequences used to instantiate the generic theorems and to
exhibit counterexamples.
-/

/-- An oracle whose dataset listing is always empty (the requested name never
becomes visible) and whose other endpoints are inert. -/
def oracleNoDatasets : Oracle where
  datasets := fun _ => []
  documents := fun _ _ _ => []
  createResp := fun _ => Except.error (HttpError.statusError 500)
  updateResp := fun _ => Except.error (HttpError.statusError 500)
  deleteResp := fun _ => Except.error (HttpError.statusError 500)
  indexing := fun _ => { total_segments := 0, completed_segments := 0, indexing_status := "indexing" }

/-- An oracle with one dataset `"kb"`, no documents, and a create-by-text
endpoint that always answers HTTP 500. -/
def oracleCreateFails : Oracle where
  datasets := fun _ => [{ id := "ds1", name := "kb" }]
  documents := fun _ _ _ => []
  createResp := fun _ => Except.error (HttpError.statusError 500)
  updateResp := fun _ => Except.ok { document := [], batch := "b0" }
  deleteResp := fun _ => Except.ok ()
  indexing := fun _ => { total_segments := 1, completed_segments := 1, indexing_status := "completed" }

/-- An oracle with one dataset `"kb"` whose document listing always contains
`a.txt`, and whose delete endpoint always answers HTTP 500. -/
def oracleDeleteFails : Oracle where
  datasets := fun _ => [{ id := "ds1", name := "kb" }]
  documents := fun _ _ _ => [{ id := "d1", name := "a.txt" }]
  createResp := fun _ => Except.ok { document := [], batch := "b0" }
  updateResp := fun _ => Except.ok { document := [], batch := "b0" }
  deleteResp := fun _ => Except.error (HttpError.statusError 500)
  indexing := fun _ => { total_segments := 1, completed_segments := 1, indexing_status := "completed" }

/-- An oracle with one dataset `"kb"` whose document listing always contains
`a.txt` (so the lookup for logical name `"a"` finds it), whose update
endpoint always answers HTTP 403 (the archived-document case), and whose
delete and create endpoints succeed. -/
def oracleUpdateFails : Oracle where
  datasets := fun _ => [{ id := "ds1", name := "kb" }]
  documents := fun _ _ _ => [{ id := "d1", name := "a.txt" }]
  createResp := fun _ => Except.ok { document := [], batch := "b1" }
  updateResp := fun _ => Except.error (HttpError.statusError 403)
  deleteResp := fun _ => Except.ok ()
  indexing := fun _ => { total_segments := 1, completed_segments := 1, indexing_status := "completed" }

/-- An oracle with one dataset `"kb"`, an empty document listing, and a
create-by-text endpoint that always succeeds. -/
def oracleCreateOk : Oracle where
  datasets := fun _ => [{ id := "ds1", name := "kb" }]
  documents := fun _ _ _ => []
  createResp := fun _ => Except.ok { document := [("id", "d9")], batch := "b1" }
  updateResp := fun _ => Except.ok { document := [], batch := "b0" }
  deleteResp := fun _ => Except.ok ()
  indexing := fun _ => { total_segments := 1, completed_segments := 1, indexing_status := "completed" }

/-- An oracle with one dataset `"kb"` holding three documents in the
unfiltered listing, whose delete endpoint fails (HTTP 500) exactly on the
second delete request of the run and succeeds otherwise. -/
def oracleBulkDelete : Oracle where
  datasets := fun _ => [{ id := "ds1", name := "kb" }]
  documents := fun _ _ kw =>
    match kw with
    | none => [{ id := "d1", name := "a.txt" }, { id := "d2", name := "b.txt" },
               { id := "d3", name := "c.txt" }]
    | some _ => []
  createResp := fun _ => Except.ok { document := [], batch := "b0" }
  updateResp := fun _ => Except.ok { document := [], batch := "b0" }
  deleteResp := fun t =>
    if countOp isDeleteDocument t == 1 then Except.error (HttpError.statusError 500)
    else Except.ok ()
  indexing := fun _ => { total_segments := 1, completed_segments := 1, indexing_status := "completed" }

/-- Status schedule whose second poll (index 1) reports `"completed"` and
whose other polls report `"indexing"`. -/
def pollOnceCompleted : Nat → IndexingData := fun n =>
  if n = 1 then { total_segments := 2, completed_segments := 2, indexing_status := "completed" }
  else { total_segments := 2, completed_segments := 1, indexing_status := "indexing" }

/-- Status schedule that reports `"indexing"` forever. -/
def pollAlwaysIndexing : Nat → IndexingData := fun _ =>
  { total_segments := 3, completed_segments := 1, indexing_status := "indexing" }

/-!
## Helper lemmas
-/

theorem countOp_append (p : Op → Bool) (a b : List Op) :
    countOp p (a ++ b) = countOp p a + countOp p b := by
  simp [countOp, List.filter_append]

/-!
## Theorems
-/

/-- C5: for the empty input mapping, `embed_knowledge` logs the empty-input
error and returns immediately, and the single appended trace entry is a
logging call, so the call performs zero network operations (no dataset
resolution, no document reads or writes). -/
theorem embed_knowledge_empty_input_guard (o : Oracle) (my_separator db_name : String)
    (force_override : Bool) (fuel : Nat) (t : List Op) :
    embed_knowledge (traceServer o) my_separator [] db_name force_override fuel t
      = EmbedOutcome.emptyInput (t ++ [Op.log LogEvent.emptyDocsError])
    ∧ countOp isNetworkOp (t ++ [Op.log LogEvent.emptyDocsError]) = countOp isNetworkOp t := by
  constructor
  · rfl
  · simp [countOp_append, countOp, isNetworkOp]

/-- C2 is refuted by the all-empty listing: with five rounds of fuel,
resolution is still recursing (`none`) and has issued five create-dataset
requests, not one, so the recursion is not capped at a single retry and does
not terminate when the listing never reflects the name. -/
theorem hook_knowledge_dataset_retry_cex :
    (_hook_knowledge_dataset (traceServer oracleNoDatasets) "kb" 5 []).1 = none
    ∧ countOp isCreateDataset
        (_hook_knowledge_dataset (traceServer oracleNoDatasets) "kb" 5 []).2 = 5 := by
  constructor
  · rfl
  · rfl

/-- C2 (amended): dataset resolution has no retry cap.  For every sequence of
server responses in which the listing never contains the requested name,
`_hook_knowledge_dataset` is still recursing after any number `fuel` of
rounds (it never terminates), and it has issued one create-dataset request
per round (`fuel` of them), not exactly one. -/
theorem hook_knowledge_dataset_retry_unbounded (o : Oracle) (db_name : String)
    (h : ∀ t d, d ∈ o.datasets t → d.name ≠ db_name) :
    ∀ (fuel : Nat) (t : List Op),
      (_hook_knowledge_dataset (traceServer o) db_name fuel t).1 = none
      ∧ countOp isCreateDataset (_hook_knowledge_dataset (traceServer o) db_name fuel t).2
          = countOp isCreateDataset t + fuel := by
  intro fuel
  induction fuel with
  | zero =>
    intro t
    simp [_hook_knowledge_dataset]
  | succ n ih =>
    intro t
    have hfind : (o.datasets t).find? (fun d => d.name == db_name) = none := by
      apply List.find?_eq_none.mpr
      intro d hd
      simpa using h t d hd
    have hstep :
        _hook_knowledge_dataset (traceServer o) db_name (n + 1) t
          = _hook_knowledge_dataset (traceServer o) db_name n
              (t ++ [Op.getDatasets, Op.log LogEvent.datasetMissingWarn, Op.postDataset db_name,
                Op.log (LogEvent.datasetCreated db_name)]) := by
      simp [_hook_knowledge_dataset, traceServer, hfind]
    obtain ⟨h1, h2⟩ := ih
      (t ++ [Op.getDatasets, Op.log LogEvent.datasetMissingWarn, Op.postDataset db_name,
        Op.log (LogEvent.datasetCreated db_name)])
    refine ⟨by rw [hstep]; exact h1, ?_⟩
    rw [hstep, h2, countOp_append]
    simp [countOp, isCreateDataset]
    omega

/-- Closed instantiation of the amended C2 theorem at the all-empty-listing
oracle with three rounds of fuel: still unresolved, three creates issued. -/
theorem hook_knowledge_dataset_retry_unbounded_witness :
    (_hook_knowledge_dataset (traceServer oracleNoDatasets) "kb" 3 []).1 = none
    ∧ countOp isCreateDataset
        (_hook_knowledge_dataset (traceServer oracleNoDatasets) "kb" 3 []).2 = 0 + 3 := by
  exact hook_knowledge_dataset_retry_unbounded oracleNoDatasets "kb"
    (by intro t d hd; simp [oracleNoDatasets] at hd) 3 []

theorem sync_indexing_never_terminal (f : Nat → IndexingData) (dataset_id batch : String)
    (h : ∀ j, isTerminalStatus (f j) = false) :
    ∀ (fuel p sl : Nat),
      _sync_indexing_status (pollServer f) dataset_id batch fuel (p, sl)
        = (false, (p + fuel, sl + fuel)) := by
  intro fuel
  induction fuel with
  | zero =>
    intro p sl
    simp [_sync_indexing_status]
  | succ n ih =>
    intro p sl
    have hp := h p
    simp only [isTerminalStatus] at hp
    have hstep :
        _sync_indexing_status (pollServer f) dataset_id batch (n + 1) (p, sl)
          = _sync_indexing_status (pollServer f) dataset_id batch n (p + 1, sl + 1) := by
      simp [_sync_indexing_status, pollServer, hp]
    rw [hstep, ih]
    have e1 : p + 1 + n = p + (n + 1) := by omega
    have e2 : sl + 1 + n = sl + (n + 1) := by omega
    rw [e1, e2]

theorem sync_indexing_first_terminal (f : Nat → IndexingData) (dataset_id batch : String) :
    ∀ (k fuel p sl : Nat), (∀ j, j < k → isTerminalStatus (f (p + j)) = false) →
      isTerminalStatus (f (p + k)) = true → k < fuel →
      _sync_indexing_status (pollServer f) dataset_id batch fuel (p, sl)
        = (true, (p + k + 1, sl + k + 1)) := by
  intro k
  induction k with
  | zero =>
    intro fuel p sl _ hterm hfuel
    match fuel, hfuel with
    | m + 1, _ =>
      simp only [Nat.add_zero] at hterm
      simp only [isTerminalStatus] at hterm
      simp [_sync_indexing_status, pollServer, hterm]
  | succ kk ih =>
    intro fuel p sl hlt hterm hfuel
    match fuel, hfuel with
    | m + 1, hfuel =>
      have h0 := hlt 0 (by omega)
      simp only [Nat.add_zero] at h0
      simp only [isTerminalStatus] at h0
      have hstep :
          _sync_indexing_status (pollServer f) dataset_id batch (m + 1) (p, sl)
            = _sync_indexing_status (pollServer f) dataset_id batch m (p + 1, sl + 1) := by
        simp [_sync_indexing_status, pollServer, h0]
      have hlt1 : ∀ j, j < kk → isTerminalStatus (f (p + 1 + j)) = false := by
        intro j hj
        have := hlt (j + 1) (by omega)
        have e : p + (j + 1) = p + 1 + j := by omega
        rwa [e] at this
      have hterm1 : isTerminalStatus (f (p + 1 + kk)) = true := by
        have e : p + (kk + 1) = p + 1 + kk := by omega
        rwa [e] at hterm
      rw [hstep, ih m (p + 1) (sl + 1) hlt1 hterm1 (by omega)]
      have e1 : p + 1 + kk + 1 = p + (kk + 1) + 1 := by omega
      have e2 : sl + 1 + kk + 1 = sl + (kk + 1) + 1 := by omega
      rw [e1, e2]

/-- C6: the indexing monitor terminates if and only if some poll returns a
terminal status (`"completed"` or `"error"`).  If the first terminal status
appears at poll index `k`, the loop exits right after that poll, having
issued `k + 1` polls and `k + 1` one-second sleeps (one sleep per poll, the
fixed one-second interval); if no poll ever returns a terminal status, the
loop is still running after any number `fuel` of iterations, having issued
`fuel` polls and `fuel` sleeps — there is no timeout or iteration bound. -/
theorem sync_indexing_status_terminates_iff_terminal (f : Nat → IndexingData)
    (dataset_id batch : String) :
    (∀ k fuel, (∀ j, j < k → isTerminalStatus (f j) = false) →
        isTerminalStatus (f k) = true → k < fuel →
        _sync_indexing_status (pollServer f) dataset_id batch fuel (0, 0)
          = (true, (k + 1, k + 1)))
    ∧ ((∀ j, isTerminalStatus (f j) = false) →
        ∀ fuel, _sync_indexing_status (pollServer f) dataset_id batch fuel (0, 0)
          = (false, (fuel, fuel))) := by
  constructor
  · intro k fuel hlt hterm hfuel
    have := sync_indexing_first_terminal f dataset_id batch k fuel 0 0
      (by intro j hj; simpa using hlt j hj) (by simpa using hterm) hfuel
    simpa using this
  · intro h fuel
    have := sync_indexing_never_terminal f dataset_id batch h fuel 0 0
    simpa using this

/-- Closed instantiation of the C6 theorem: under `pollOnceCompleted` (second
poll reports `"completed"`) the loop exits after two polls and two sleeps;
under `pollAlwaysIndexing` it is still polling after four fuel rounds, with
four polls and four sleeps. -/
theorem sync_indexing_status_terminates_iff_terminal_witness :
    _sync_indexing_status (pollServer pollOnceCompleted) "ds1" "b1" 3 (0, 0) = (true, (2, 2))
    ∧ _sync_indexing_status (pollServer pollAlwaysIndexing) "ds1" "b1" 4 (0, 0)
        = (false, (4, 4)) := by
  constructor
  · exact (sync_indexing_status_terminates_iff_terminal pollOnceCompleted "ds1" "b1").1 1 3
      (by
        intro j hj
        have hj0 : j = 0 := by omega
        subst hj0
        decide)
      (by decide) (by omega)
  · exact (sync_indexing_status_terminates_iff_terminal pollAlwaysIndexing "ds1" "b1").2
      (fun _ => rfl) 4

/-- C3: per-document dispatch follows the specification's reconciler state
machine.  For every server response sequence whose document listing carries
no empty-string identifiers (Python's walrus truthiness would misread an
empty id as "absent") and whose delete succeeds in the force-override case,
the document writes issued for one document are exactly
`reconcileDispatchSpec` of the locator outcome: create when no listed
document is named `table_name + ".txt"`; update on the found identifier when
`force_override` is false; delete of the found identifier followed by create,
in that order, when `force_override` is true. -/
theorem embed_step_dispatch (o : Oracle) (my_separator dataset_id table_name knowledge_card : String)
    (force_override : Bool) (t : List Op)
    (hid : ∀ d, d ∈ o.documents t dataset_id (some table_name) → d.id ≠ "")
    (hdel : ∀ d, (o.documents t dataset_id (some table_name)).find?
          (fun x => x.name == table_name ++ ".txt") = some d →
        force_override = true →
        o.deleteResp (t ++ [Op.getDocuments dataset_id (some table_name)]) = Except.ok ()) :
    writeOps (stepState
        (embedStep (traceServer o) my_separator dataset_id table_name knowledge_card
          force_override t))
      = writeOps t ++
          reconcileDispatchSpec dataset_id
            (((o.documents t dataset_id (some table_name)).find?
                (fun x => x.name == table_name ++ ".txt")).map (fun d => d.id))
            force_override
            (_document_preprocess_payload my_separator table_name knowledge_card) := by
  cases hfind : (o.documents t dataset_id (some table_name)).find?
      (fun x => x.name == table_name ++ ".txt") with
  | none =>
    cases hcr : o.createResp (t ++ [Op.getDocuments dataset_id (some table_name)]) with
    | ok udr =>
      simp [embedStep, _sync_document_id, _list_documents, _create_document_by_text, traceServer,
        hfind, hcr, optStrTruthy, stepState, writeOps, reconcileDispatchSpec,
        List.filter_append, isWriteOp]
    | error e =>
      simp [embedStep, _sync_document_id, _list_documents, _create_document_by_text, traceServer,
        hfind, hcr, optStrTruthy, stepState, writeOps, reconcileDispatchSpec,
        List.filter_append, isWriteOp]
  | some d =>
    have hdne : d.id ≠ "" := hid d (List.mem_of_find?_eq_some hfind)
    cases force_override with
    | true =>
      have hdel1 := hdel d hfind rfl
      cases hcr : o.createResp
          (t ++ [Op.getDocuments dataset_id (some table_name),
            Op.deleteDocument dataset_id d.id]) with
      | ok udr =>
        simp [embedStep, _sync_document_id, _list_documents, _create_document_by_text,
          _delete_document, traceServer, hfind, hdel1, hcr, optStrTruthy, hdne, stepState,
          writeOps, reconcileDispatchSpec, List.filter_append, isWriteOp]
      | error e =>
        simp [embedStep, _sync_document_id, _list_documents, _create_document_by_text,
          _delete_document, traceServer, hfind, hdel1, hcr, optStrTruthy, hdne, stepState,
          writeOps, reconcileDispatchSpec, List.filter_append, isWriteOp]
    | false =>
      cases hup : o.updateResp (t ++ [Op.getDocuments dataset_id (some table_name)]) with
      | ok udr =>
        simp [embedStep, _sync_document_id, _list_documents, _update_document_by_text,
          traceServer, hfind, hup, optStrTruthy, hdne, stepState, writeOps,
          reconcileDispatchSpec, List.filter_append, isWriteOp]
      | error e =>
        simp [embedStep, _sync_document_id, _list_documents, _update_document_by_text,
          traceServer, hfind, hup, optStrTruthy, hdne, stepState, writeOps,
          reconcileDispatchSpec, List.filter_append, isWriteOp]

/-- Closed instantiation of the C3 dispatch theorem in all three states:
create on an empty listing (`oracleCreateOk`), update on a found identifier
with `force_override` off, and delete-then-create with it on
(`oracleUpdateFails` lists `a.txt` with id `d1` and its delete succeeds). -/
theorem embed_step_dispatch_witness :
    writeOps (stepState
        (embedStep (traceServer oracleCreateOk) "-" "ds1" "a" "x" false []))
      = [Op.createByText "ds1" (_document_preprocess_payload "-" "a" "x")]
    ∧ writeOps (stepState
        (embedStep (traceServer oracleUpdateFails) "-" "ds1" "a" "x" false []))
      = [Op.updateByText "ds1" "d1" (_document_preprocess_payload "-" "a" "x")]
    ∧ writeOps (stepState
        (embedStep (traceServer oracleUpdateFails) "-" "ds1" "a" "x" true []))
      = [Op.deleteDocument "ds1" "d1",
         Op.createByText "ds1" (_document_preprocess_payload "-" "a" "x")] := by
  refine ⟨?_, ?_, ?_⟩
  · have h := embed_step_dispatch oracleCreateOk "-" "ds1" "a" "x" false []
      (by intro d hd; simp [oracleCreateOk] at hd)
      (by intro d hd; simp [oracleCreateOk] at hd)
    simpa [oracleCreateOk, reconcileDispatchSpec, writeOps] using h
  · have h := embed_step_dispatch oracleUpdateFails "-" "ds1" "a" "x" false []
      (by intro d hd; simp [oracleUpdateFails] at hd; simp [hd])
      (by intro d _ hco; exact absurd hco (by decide))
    simpa [oracleUpdateFails, reconcileDispatchSpec, writeOps] using h
  · have h := embed_step_dispatch oracleUpdateFails "-" "ds1" "a" "x" true []
      (by intro d hd; simp [oracleUpdateFails] at hd; simp [hd])
      (by intro d _ _; rfl)
    simpa [oracleUpdateFails, reconcileDispatchSpec, writeOps] using h

/-- C1 is refuted on the create path: with two input documents and a server
whose create-by-text endpoint fails (HTTP 500), the batch call aborts with
the propagating exception right after the first document's failed create —
the final trace contains no operation for the second document `"b"` (its
lookup was never issued), so a failure on one document does abort processing
of the remaining documents. -/
theorem embed_knowledge_independent_outcomes_cex :
    embed_knowledge (traceServer oracleCreateFails) "-" [("a", "ta"), ("b", "tb")] "kb" false 2 []
      = EmbedOutcome.raised (HttpError.statusError 500)
          [Op.getDatasets, Op.log (LogEvent.datasetFound "kb" "ds1"),
           Op.getDocuments "ds1" (some "a"),
           Op.createByText "ds1" (_document_preprocess_payload "-" "a" "ta")]
    ∧ Op.getDocuments "ds1" (some "b") ∉
        [Op.getDatasets, Op.log (LogEvent.datasetFound "kb" "ds1"),
         Op.getDocuments "ds1" (some "a"),
         Op.createByText "ds1" (_document_preprocess_payload "-" "a" "ta")] := by
  constructor
  · rfl
  · decide

/-- C1 (amended): document outcomes are independent only on the update path.
A failure of create-by-text (whether reached from the absent state or after a
force-override delete) or of the force-override delete itself raises and
aborts the loop: the batch result is the propagating error, and the final
trace is closed — it does not depend on the remaining items, which are never
processed. -/
theorem embed_loop_create_or_delete_failure_aborts (o : Oracle)
    (my_separator dataset_id table_name knowledge_card : String)
    (rest : List (String × String)) (t : List Op) (e : HttpError) :
    (((o.documents t dataset_id (some table_name)).find?
          (fun x => x.name == table_name ++ ".txt") = none) →
      o.createResp (t ++ [Op.getDocuments dataset_id (some table_name)]) = Except.error e →
      ∀ force_override,
        embedLoop (traceServer o) my_separator dataset_id force_override
            ((table_name, knowledge_card) :: rest) t
          = Except.error (e, t ++ [Op.getDocuments dataset_id (some table_name),
              Op.createByText dataset_id
                (_document_preprocess_payload my_separator table_name knowledge_card)]))
    ∧ (∀ d, (o.documents t dataset_id (some table_name)).find?
          (fun x => x.name == table_name ++ ".txt") = some d →
        d.id ≠ "" →
        o.deleteResp (t ++ [Op.getDocuments dataset_id (some table_name)]) = Except.error e →
        embedLoop (traceServer o) my_separator dataset_id true
            ((table_name, knowledge_card) :: rest) t
          = Except.error (e, t ++ [Op.getDocuments dataset_id (some table_name),
              Op.deleteDocument dataset_id d.id])) := by
  constructor
  · intro hfind hcr force_override
    simp [embedLoop, embedStep, _sync_document_id, _list_documents, _create_document_by_text,
      traceServer, hfind, hcr, optStrTruthy]
  · intro d hfind hdne hdel
    simp [embedLoop, embedStep, _sync_document_id, _list_documents, _delete_document,
      traceServer, hfind, hdne, hdel, optStrTruthy]

/-- Closed instantiation of the amended C1 theorem: a failed create aborts
the loop before the second item (`oracleCreateFails`), and a failed
force-override delete aborts it as well (`oracleDeleteFails`). -/
theorem embed_loop_create_or_delete_failure_aborts_witness :
    embedLoop (traceServer oracleCreateFails) "-" "ds1" false [("a", "ta"), ("b", "tb")] []
      = Except.error (HttpError.statusError 500,
          [Op.getDocuments "ds1" (some "a"),
           Op.createByText "ds1" (_document_preprocess_payload "-" "a" "ta")])
    ∧ embedLoop (traceServer oracleDeleteFails) "-" "ds1" true [("a", "ta"), ("b", "tb")] []
      = Except.error (HttpError.statusError 500,
          [Op.getDocuments "ds1" (some "a"), Op.deleteDocument "ds1" "d1"]) := by
  constructor
  · exact (embed_loop_create_or_delete_failure_aborts oracleCreateFails "-" "ds1" "a" "ta"
      [("b", "tb")] [] (HttpError.statusError 500)).1 rfl rfl false
  · exact (embed_loop_create_or_delete_failure_aborts oracleDeleteFails "-" "ds1" "a" "ta"
      [("b", "tb")] [] (HttpError.statusError 500)).2 { id := "d1", name := "a.txt" } rfl
      (by decide) rfl

/-- C4: when the update-by-text request fails with an HTTP error status (the
archived-document case), the loop body recovers locally: it returns
`Except.ok` (no exception reaches the batch caller) with `none` as that
document's result, the failure is logged (`LogEvent.updateFailed` is in the
trace), and the loop then continues with the remaining documents, prepending
`none` to their results. -/
theorem embed_loop_update_failure_recovered (o : Oracle)
    (my_separator dataset_id table_name knowledge_card : String)
    (rest : List (String × String)) (t : List Op) (d : Document) (e : HttpError)
    (hfind : (o.documents t dataset_id (some table_name)).find?
        (fun x => x.name == table_name ++ ".txt") = some d)
    (hid : d.id ≠ "")
    (hupd : o.updateResp (t ++ [Op.getDocuments dataset_id (some table_name)])
        = Except.error e) :
    embedStep (traceServer o) my_separator dataset_id table_name knowledge_card false t
      = Except.ok (none, t ++ [Op.getDocuments dataset_id (some table_name),
          Op.updateByText dataset_id d.id
            (_document_preprocess_payload my_separator table_name knowledge_card),
          Op.log (LogEvent.updateFailed table_name)])
    ∧ (∀ seq s3,
        embedLoop (traceServer o) my_separator dataset_id false rest
            (t ++ [Op.getDocuments dataset_id (some table_name),
              Op.updateByText dataset_id d.id
                (_document_preprocess_payload my_separator table_name knowledge_card),
              Op.log (LogEvent.updateFailed table_name)]) = Except.ok (seq, s3) →
        embedLoop (traceServer o) my_separator dataset_id false
            ((table_name, knowledge_card) :: rest) t = Except.ok (none :: seq, s3)) := by
  have hstep : embedStep (traceServer o) my_separator dataset_id table_name knowledge_card
      false t
      = Except.ok (none, t ++ [Op.getDocuments dataset_id (some table_name),
          Op.updateByText dataset_id d.id
            (_document_preprocess_payload my_separator table_name knowledge_card),
          Op.log (LogEvent.updateFailed table_name)]) := by
    simp [embedStep, _sync_document_id, _list_documents, _update_document_by_text, traceServer,
      hfind, hupd, optStrTruthy, hid]
  refine ⟨hstep, ?_⟩
  intro seq s3 hrest
  simp [embedLoop, hstep, hrest]

/-- Closed instantiation of the C4 theorem at `oracleUpdateFails` (document
`a.txt` is listed with id `d1` and its update answers HTTP 403): the first
document's write fails recoverably, yields `none`, and the second document
`"b"` is still processed (created, since it is absent). -/
theorem embed_loop_update_failure_recovered_witness :
    embedStep (traceServer oracleUpdateFails) "-" "ds1" "a" "ta" false []
      = Except.ok (none, [Op.getDocuments "ds1" (some "a"),
          Op.updateByText "ds1" "d1" (_document_preprocess_payload "-" "a" "ta"),
          Op.log (LogEvent.updateFailed "a")])
    ∧ embedLoop (traceServer oracleUpdateFails) "-" "ds1" false [("a", "ta"), ("b", "tb")] []
      = Except.ok ([none, some { document := [], batch := "b1" }],
          [Op.getDocuments "ds1" (some "a"),
           Op.updateByText "ds1" "d1" (_document_preprocess_payload "-" "a" "ta"),
           Op.log (LogEvent.updateFailed "a"),
           Op.getDocuments "ds1" (some "b"),
           Op.createByText "ds1" (_document_preprocess_payload "-" "b" "tb")]) := by
  have h := embed_loop_update_failure_recovered oracleUpdateFails "-" "ds1" "a" "ta"
    [("b", "tb")] [] { id := "d1", name := "a.txt" } (HttpError.statusError 403)
    rfl (by decide) rfl
  exact ⟨h.1, h.2 [some { document := [], batch := "b1" }] _ rfl⟩

theorem embedLoop_ok_length {σ : Type} (sv : Server σ) (my_separator dataset_id : String)
    (force_override : Bool) :
    ∀ (items : List (String × String)) (s : σ) (seq : List (Option UploadDocumentResponse))
      (s2 : σ),
      embedLoop sv my_separator dataset_id force_override items s = Except.ok (seq, s2) →
      seq.length = items.length := by
  intro items
  induction items with
  | nil =>
    intro s seq s2 h
    simp [embedLoop] at h
    simp [h.1]
  | cons hd rest ih =>
    intro s seq s2 h
    obtain ⟨table_name, knowledge_card⟩ := hd
    simp only [embedLoop] at h
    cases hstep : embedStep sv my_separator dataset_id table_name knowledge_card
        force_override s with
    | error es => simp [hstep] at h
    | ok rs =>
      obtain ⟨r, s1⟩ := rs
      cases hrest : embedLoop sv my_separator dataset_id force_override rest s1 with
      | error es => simp [hstep, hrest] at h
      | ok qs =>
        obtain ⟨sq, s3⟩ := qs
        simp [hstep, hrest] at h
        obtain ⟨hseq, -⟩ := h
        subst hseq
        simp [ih s1 sq s3 hrest]

/-- C7 is refuted on a successful two-document run: against `oracleCreateOk`
both documents are created, yet `embed_knowledge` evaluates to
`EmbedOutcome.done` with the final trace only — the constructor modelling
Python's bare `None` return.  The per-document results accumulated in the
local `response_seq` are not part of the return value: the entry point does
not return a sequence of write results to the caller. -/
theorem embed_knowledge_returns_results_cex :
    embed_knowledge (traceServer oracleCreateOk) "-" [("a", "x"), ("b", "y")] "kb" false 2 []
      = EmbedOutcome.done
          [Op.getDatasets, Op.log (LogEvent.datasetFound "kb" "ds1"),
           Op.getDocuments "ds1" (some "a"),
           Op.createByText "ds1" (_document_preprocess_payload "-" "a" "x"),
           Op.getDocuments "ds1" (some "b"),
           Op.createByText "ds1" (_document_preprocess_payload "-" "b" "y")] := by
  rfl

/-- C7 (amended): the loop does collect one result per input document in the
local `response_seq` (with `none` standing for a recoverably-failed write),
but `embed_knowledge` never returns it — on a run where the loop completes,
the entry point evaluates to `EmbedOutcome.done` (Python `None`), dropping
the collected sequence. -/
theorem embed_knowledge_collects_but_drops_results (o : Oracle) (my_separator db_name : String)
    (items : List (String × String)) (force_override : Bool) (fuel : Nat) (t : List Op)
    (dataset_id : String) (t1 : List Op) (seq : List (Option UploadDocumentResponse))
    (t2 : List Op)
    (hne : items ≠ [])
    (hhook : _hook_knowledge_dataset (traceServer o) db_name fuel t = (some dataset_id, t1))
    (hloop : embedLoop (traceServer o) my_separator dataset_id force_override items t1
        = Except.ok (seq, t2)) :
    seq.length = items.length
    ∧ embed_knowledge (traceServer o) my_separator items db_name force_override fuel t
        = EmbedOutcome.done t2 := by
  constructor
  · exact embedLoop_ok_length (traceServer o) my_separator dataset_id force_override items t1
      seq t2 hloop
  · unfold embed_knowledge
    rw [if_neg (by simpa using hne)]
    simp [hhook, hloop]

/-- Closed instantiation of the amended C7 theorem at `oracleCreateOk` with
two input documents: the internal sequence has two entries, and the entry
point returns the `done` marker carrying no results. -/
theorem embed_knowledge_collects_but_drops_results_witness :
    ([some { document := [("id", "d9")], batch := "b1" },
      some { document := [("id", "d9")], batch := "b1" }]
        : List (Option UploadDocumentResponse)).length = [("a", "x"), ("b", "y")].length
    ∧ embed_knowledge (traceServer oracleCreateOk) "-" [("a", "x"), ("b", "y")] "kb" false 2 []
        = EmbedOutcome.done
            [Op.getDatasets, Op.log (LogEvent.datasetFound "kb" "ds1"),
             Op.getDocuments "ds1" (some "a"),
             Op.createByText "ds1" (_document_preprocess_payload "-" "a" "x"),
             Op.getDocuments "ds1" (some "b"),
             Op.createByText "ds1" (_document_preprocess_payload "-" "b" "y")] := by
  exact embed_knowledge_collects_but_drops_results oracleCreateOk "-" "kb"
    [("a", "x"), ("b", "y")] false 2 [] "ds1"
    [Op.getDatasets, Op.log (LogEvent.datasetFound "kb" "ds1")]
    [some { document := [("id", "d9")], batch := "b1" },
     some { document := [("id", "d9")], batch := "b1" }]
    [Op.getDatasets, Op.log (LogEvent.datasetFound "kb" "ds1"),
     Op.getDocuments "ds1" (some "a"),
     Op.createByText "ds1" (_document_preprocess_payload "-" "a" "x"),
     Op.getDocuments "ds1" (some "b"),
     Op.createByText "ds1" (_document_preprocess_payload "-" "b" "y")]
    (by decide) rfl rfl

theorem traceServer_deleteDocument (o : Oracle) (ds doc : String) (t : List Op) :
    (traceServer o).deleteDocument ds doc t = (o.deleteResp t, t ++ [Op.deleteDocument ds doc]) :=
  rfl

theorem traceServer_getDocuments (o : Oracle) (ds : String) (kw : Option String) (t : List Op) :
    (traceServer o).getDocuments ds kw t = (o.documents t ds kw, t ++ [Op.getDocuments ds kw]) :=
  rfl

theorem traceServer_log (o : Oracle) (e : LogEvent) (t : List Op) :
    (traceServer o).log e t = t ++ [Op.log e] :=
  rfl

theorem deleteLoop_delete_count (o : Oracle) (dataset_id : String) :
    ∀ (docs : List Document) (t : List Op),
      countOp isDeleteDocument (deleteLoop (traceServer o) dataset_id docs t)
        = countOp isDeleteDocument t + docs.length := by
  intro docs
  induction docs with
  | nil =>
    intro t
    simp [deleteLoop]
  | cons d rest ih =>
    intro t
    cases hdel : o.deleteResp t with
    | ok u =>
      simp only [deleteLoop, _delete_document, traceServer_deleteDocument, traceServer_log, hdel]
      rw [ih, countOp_append, countOp_append]
      simp [countOp, isDeleteDocument]
      omega
    | error e =>
      simp only [deleteLoop, _delete_document, traceServer_deleteDocument, traceServer_log, hdel]
      rw [ih, countOp_append, countOp_append]
      simp [countOp, isDeleteDocument]
      omega

theorem deleteLoop_mem_mono (o : Oracle) (dataset_id : String) :
    ∀ (docs : List Document) (t : List Op) (op : Op),
      op ∈ t → op ∈ deleteLoop (traceServer o) dataset_id docs t := by
  intro docs
  induction docs with
  | nil =>
    intro t op hop
    simpa [deleteLoop] using hop
  | cons d rest ih =>
    intro t op hop
    cases hdel : o.deleteResp t with
    | ok u =>
      simp only [deleteLoop, _delete_document, traceServer_deleteDocument, traceServer_log, hdel]
      exact ih _ op (by simp [hop])
    | error e =>
      simp only [deleteLoop, _delete_document, traceServer_deleteDocument, traceServer_log, hdel]
      exact ih _ op (by simp [hop])

/-- C8: bulk delete lists the resolved dataset's documents unfiltered (the
trace contains the keyword-free listing request) and issues one delete
request per listed document, whatever the per-document delete responses are:
quantifying over all oracles covers every pattern of per-document failures,
so when k of N deletes fail the other N - k delete requests are still
issued, and the call still completes normally (`some` — no exception
propagates). -/
theorem delete_all_document_best_effort (o : Oracle) (db_name : String) (fuel : Nat)
    (t : List Op) (dataset_id : String) (t1 : List Op)
    (hhook : _hook_knowledge_dataset (traceServer o) db_name fuel t = (some dataset_id, t1)) :
    ∃ t2, delete_all_document (traceServer o) db_name fuel t = some t2
      ∧ countOp isDeleteDocument t2
          = countOp isDeleteDocument t1 + (o.documents t1 dataset_id none).length
      ∧ Op.getDocuments dataset_id none ∈ t2 := by
  have hmain : delete_all_document (traceServer o) db_name fuel t
      = some (deleteLoop (traceServer o) dataset_id (o.documents t1 dataset_id none)
          (t1 ++ [Op.getDocuments dataset_id none])
          ++ [Op.log (LogEvent.deleteAllDone (o.documents t1 dataset_id none).length)]) := by
    unfold delete_all_document
    simp only [hhook, _list_documents, traceServer_getDocuments, traceServer_log]
  refine ⟨_, hmain, ?_, ?_⟩
  · rw [countOp_append, deleteLoop_delete_count, countOp_append]
    simp [countOp, isDeleteDocument]
  · rw [List.mem_append]
    left
    exact deleteLoop_mem_mono o dataset_id _ _ _ (by simp)

/-- Closed instantiation of the C8 theorem at `oracleBulkDelete`: three
documents are listed, the second delete fails with HTTP 500, and still three
delete requests are issued and the call completes. -/
theorem delete_all_document_best_effort_witness :
    ∃ t2, delete_all_document (traceServer oracleBulkDelete) "kb" 1 [] = some t2
      ∧ countOp isDeleteDocument t2 = 3
      ∧ Op.getDocuments "ds1" none ∈ t2 := by
  have h := delete_all_document_best_effort oracleBulkDelete "kb" 1 [] "ds1"
    [Op.getDatasets, Op.log (LogEvent.datasetFound "kb" "ds1")] rfl
  simpa [oracleBulkDelete, countOp, isDeleteDocument] using h

theorem mockServer_getDatasets (s : MockState) :
    mockServer.getDatasets s = (s.datasets.take 100, s) :=
  rfl

theorem mockServer_postDataset (name : String) (s : MockState) :
    mockServer.postDataset name s
      = { s with
          datasets := { id := "ds" ++ toString s.nextId, name := name } :: s.datasets,
          nextId := s.nextId + 1,
          creates := s.creates + 1 } :=
  rfl

theorem mockServer_getDocuments (ds : String) (kw : Option String) (s : MockState) :
    mockServer.getDocuments ds kw s
      = (((s.docs.filter (fun p => p.1 == ds)).map Prod.snd).take 100, s) :=
  rfl

theorem mockServer_log (e : LogEvent) (s : MockState) : mockServer.log e s = s :=
  rfl

theorem hook_mock_success_find :
    ∀ (fuel : Nat) (db_name : String) (s : MockState) (id : String) (s1 : MockState),
      _hook_knowledge_dataset mockServer db_name fuel s = (some id, s1) →
      ∃ d, (s1.datasets.take 100).find? (fun x => x.name == db_name) = some d ∧ d.id = id := by
  intro fuel
  induction fuel with
  | zero =>
    intro db_name s id s1 h
    simp [_hook_knowledge_dataset] at h
  | succ n ih =>
    intro db_name s id s1 h
    simp only [_hook_knowledge_dataset, mockServer_getDatasets, mockServer_log] at h
    cases hf : (s.datasets.take 100).find? (fun x => x.name == db_name) with
    | some d =>
      rw [hf] at h
      simp at h
      obtain ⟨hid, hs⟩ := h
      subst hs
      exact ⟨d, hf, hid⟩
    | none =>
      rw [hf] at h
      exact ih db_name (mockServer.postDataset db_name s) id s1 h

/-- C9: dataset resolution against the mock service is idempotent.  If a
resolve call returned dataset id `id` with final service state `s1`, then any
further resolve of the same name from `s1` returns the same `id`, leaves the
state unchanged, and issues no create-dataset request (the service's
create counter is unchanged). -/
theorem hook_knowledge_dataset_idempotent (fuel fuel2 : Nat) (db_name : String)
    (s : MockState) (id : String) (s1 : MockState)
    (h : _hook_knowledge_dataset mockServer db_name fuel s = (some id, s1))
    (hf2 : 0 < fuel2) :
    _hook_knowledge_dataset mockServer db_name fuel2 s1 = (some id, s1)
    ∧ ((_hook_knowledge_dataset mockServer db_name fuel2 s1).2).creates = s1.creates := by
  obtain ⟨d, hfind, hdid⟩ := hook_mock_success_find fuel db_name s id s1 h
  obtain ⟨m, rfl⟩ : ∃ m, fuel2 = m + 1 := ⟨fuel2 - 1, by omega⟩
  have h1 : _hook_knowledge_dataset mockServer db_name (m + 1) s1 = (some id, s1) := by
    simp only [_hook_knowledge_dataset, mockServer_getDatasets, mockServer_log, hfind, hdid]
  exact ⟨h1, by rw [h1]⟩

/-- Closed instantiation of the C9 theorem: after resolving `"kb"` from the
empty service state (which creates dataset `ds0`), a second resolve returns
`ds0` again, leaves the state unchanged, and the create counter stays at 1. -/
theorem hook_knowledge_dataset_idempotent_witness :
    _hook_knowledge_dataset mockServer "kb" 1
        { datasets := [{ id := "ds0", name := "kb" }], docs := [], nextId := 1, creates := 1 }
      = (some "ds0",
          { datasets := [{ id := "ds0", name := "kb" }], docs := [], nextId := 1, creates := 1 })
    ∧ ((_hook_knowledge_dataset mockServer "kb" 1
          { datasets := [{ id := "ds0", name := "kb" }], docs := [],
            nextId := 1, creates := 1 }).2).creates = 1 := by
  have h := hook_knowledge_dataset_idempotent 2 1 "kb"
    { datasets := [], docs := [], nextId := 0, creates := 0 } "ds0"
    { datasets := [{ id := "ds0", name := "kb" }], docs := [], nextId := 1, creates := 1 }
    (by decide) (by omega)
  exact h

/-- C10: bulk delete can create a dataset.  For every mock-service state
whose first listing page does not contain `db_name` (and in which no stray
document is already keyed by the fresh dataset id), `delete_all_document`
resolves via the resolve-or-create path: it creates a dataset named
`db_name` (the service's create counter goes up by one), then lists and
deletes its zero documents, leaving the new, empty dataset behind in the
final state. -/
theorem delete_all_document_creates_dataset (fuel : Nat) (db_name : String) (s : MockState)
    (hnf : (s.datasets.take 100).find? (fun d => d.name == db_name) = none)
    (hdocs : s.docs.filter (fun p => p.1 == "ds" ++ toString s.nextId) = []) :
    ∃ newds : Dataset, newds.name = db_name
      ∧ s.docs.filter (fun p => p.1 == newds.id) = []
      ∧ delete_all_document mockServer db_name (fuel + 2) s
          = some { datasets := newds :: s.datasets, docs := s.docs,
                   nextId := s.nextId + 1, creates := s.creates + 1 } := by
  refine ⟨{ id := "ds" ++ toString s.nextId, name := db_name }, rfl, hdocs, ?_⟩
  have hstep : _hook_knowledge_dataset mockServer db_name (fuel + 2) s
      = _hook_knowledge_dataset mockServer db_name (fuel + 1)
          { datasets := { id := "ds" ++ toString s.nextId, name := db_name } :: s.datasets,
            docs := s.docs, nextId := s.nextId + 1, creates := s.creates + 1 } := by
    show _hook_knowledge_dataset mockServer db_name (Nat.succ (fuel + 1)) s = _
    simp only [_hook_knowledge_dataset, mockServer_getDatasets, mockServer_log,
      mockServer_postDataset, hnf]
  have htake : ({ id := "ds" ++ toString s.nextId, name := db_name } :: s.datasets).take 100
      = { id := "ds" ++ toString s.nextId, name := db_name } :: s.datasets.take 99 := rfl
  have hstep2 : _hook_knowledge_dataset mockServer db_name (fuel + 1)
      { datasets := { id := "ds" ++ toString s.nextId, name := db_name } :: s.datasets,
        docs := s.docs, nextId := s.nextId + 1, creates := s.creates + 1 }
      = (some ("ds" ++ toString s.nextId),
         { datasets := { id := "ds" ++ toString s.nextId, name := db_name } :: s.datasets,
           docs := s.docs, nextId := s.nextId + 1, creates := s.creates + 1 }) := by
    show _hook_knowledge_dataset mockServer db_name (Nat.succ fuel) _ = _
    simp only [_hook_knowledge_dataset, mockServer_getDatasets, mockServer_log]
    rw [htake, List.find?_cons_of_pos _ (by simp)]
  unfold delete_all_document
  rw [hstep, hstep2]
  simp only [_list_documents, mockServer_getDocuments, mockServer_log]
  rw [hdocs]
  simp [deleteLoop]

/-- Closed instantiation of the C10 theorem: bulk-deleting the unknown name
`"kb"` from the empty service state leaves behind a freshly created, empty
dataset named `"kb"` and a create counter of one. -/
theorem delete_all_document_creates_dataset_witness :
    ∃ newds : Dataset, newds.name = "kb"
      ∧ (([] : List (String × Document)).filter (fun p => p.1 == newds.id)) = []
      ∧ delete_all_document mockServer "kb" 2
            { datasets := [], docs := [], nextId := 0, creates := 0 }
          = some { datasets := [newds], docs := [], nextId := 1, creates := 1 } := by
  have h := delete_all_document_creates_dataset 0 "kb"
    { datasets := [], docs := [], nextId := 0, creates := 0 } (by decide) (by decide)
  simpa using h
